import Mathlib

/-!
Verification of the HR/Payroll service (payroll computation, cycle
lifecycle, access control, data masking and SSO role mapping) against a
shallow embedding of the JavaScript source in
`server/routes/payroll-service.js`, `server/utils/dataMasking.js`, the
SSO middleware and the SQL schema migrations.

Strings from the JavaScript side are modelled as lists of characters
(`JsStr`), monetary amounts and day counts (SQL `DECIMAL`) as rationals,
and database tables as lists of rows.  Each embedded definition keeps the
name of the source function or route it is translated from.
-/

namespace Payroll

/-- JavaScript strings, modelled as character lists. -/
abbrev JsStr := List Char

/-- Calendar dates as stored in SQL `DATE` columns. -/
structure Date where
  year : Int
  month : Int
  day : Int
deriving DecidableEq, Repr

/-- Lexicographic comparison of dates (the SQL `<=` on `DATE`). -/
def Date.leb (a b : Date) : Bool :=
  if a.year < b.year then true
  else if b.year < a.year then false
  else if a.month < b.month then true
  else if b.month < a.month then false
  else a.day ≤ b.day

/-- Gregorian leap-year rule. -/
def isLeapYear (y : Int) : Bool :=
  (y % 4 == 0 && y % 100 != 0) || (y % 400 == 0)

/-- Number of calendar days in a month; this is what
`new Date(year, month, 0).getDate()` computes for 1-based `month`
(payroll-service.js line 46). -/
def daysInMonth (y m : Int) : Int :=
  if m == 2 then (if isLeapYear y then 29 else 28)
  else if m == 4 || m == 6 || m == 9 || m == 11 then 30
  else 31

/-- First day of a month, the `$5::date` parameter
`year-month-01` of the leave-overlap query. -/
def firstOfMonth (y m : Int) : Date := ⟨y, m, 1⟩

/-- The `public.leave_status` enum. -/
inductive LeaveStatus where
  | pending | approved | rejected | cancelled
deriving DecidableEq, Repr

/-- The `public.leave_type` enum. -/
inductive LeaveType where
  | sick | casual | earned | loss_of_pay | other
deriving DecidableEq, Repr

/-- A row of `payroll.leave_requests`. -/
structure LeaveRequest where
  tenant_id : Nat
  employee_id : Nat
  leave_type : LeaveType
  start_date : Date
  end_date : Date
  days : ℚ
  status : LeaveStatus
deriving DecidableEq, Repr

/-- A row of `payroll.attendance_records` (payroll schema: `status` is a
free-form `TEXT` column; the LOP marker is the literal string `lop`). -/
structure AttendanceRecord where
  tenant_id : Nat
  employee_id : Nat
  date : Date
  status : JsStr
deriving DecidableEq, Repr

/-- The month-overlap condition of the leave query in
`calculateLopAndPaidDays` (payroll-service.js lines 57-61): start date in
the month, or end date in the month, or the request spans the first day
of the month. -/
def leaveOverlapsMonth (r : LeaveRequest) (year month : Int) : Bool :=
  (r.start_date.year == year && r.start_date.month == month) ||
  (r.end_date.year == year && r.end_date.month == month) ||
  (r.start_date.leb (firstOfMonth year month) &&
    (firstOfMonth year month).leb r.end_date)

/-- Row filter of the leave query: tenant, employee, `approved` status and
month overlap. -/
def leaveRowSelected (r : LeaveRequest) (tenantId employeeId : Nat)
    (year month : Int) : Bool :=
  r.tenant_id == tenantId && r.employee_id == employeeId &&
  r.status == LeaveStatus.approved && leaveOverlapsMonth r year month

/-- The query expression `SUM(CASE WHEN leave_type = loss_of_pay THEN days ELSE 0 END)` over the
selected leave rows (payroll-service.js lines 50-63). -/
def leaveLopDays (leaves : List LeaveRequest) (tenantId employeeId : Nat)
    (year month : Int) : ℚ :=
  ((leaves.filter (fun r => leaveRowSelected r tenantId employeeId year month)).map
    (fun r => if r.leave_type = LeaveType.loss_of_pay then r.days else 0)).sum

/-- The `status = lop` literal of the attendance query. -/
def lopStatus : JsStr := 'l' :: 'o' :: 'p' :: []

/-- The `COUNT(*)` of attendance rows for the tenant and employee whose status
is `lop` and whose date falls in the month
(payroll-service.js lines 66-76). -/
def attendanceLopDays (atts : List AttendanceRecord)
    (tenantId employeeId : Nat) (year month : Int) : Nat :=
  (atts.filter (fun a =>
    a.tenant_id == tenantId && a.employee_id == employeeId &&
    a.status == lopStatus &&
    a.date.year == year && a.date.month == month)).length

/-- Result triple of `calculateLopAndPaidDays`. -/
structure LopResult where
  lopDays : ℚ
  paidDays : ℚ
  totalWorkingDays : ℚ
deriving DecidableEq, Repr

/-- Embedding of `calculateLopAndPaidDays(tenantId, employeeId, month, year)`
(payroll-service.js lines 45-84): total working days are the calendar days
of the month, LOP days are the approved loss-of-pay leave sum plus the
count of `lop` attendance rows, and paid days are clamped at zero by
`Math.max(0, totalWorkingDays - lopDays)`. -/
def calculateLopAndPaidDays (leaves : List LeaveRequest)
    (atts : List AttendanceRecord) (tenantId employeeId : Nat)
    (month year : Int) : LopResult :=
  let totalWorkingDays : ℚ := (daysInMonth year month : ℚ)
  let lop : ℚ := leaveLopDays leaves tenantId employeeId year month +
    (attendanceLopDays atts tenantId employeeId year month : ℚ)
  { lopDays := lop
    paidDays := max 0 (totalWorkingDays - lop)
    totalWorkingDays := totalWorkingDays }

/-- A row of `payroll.employees` (the columns the preview and payslip
routes read). -/
structure Employee where
  id : Nat
  tenant_id : Nat
  email : JsStr
  full_name : JsStr
  employee_code : JsStr
  status : JsStr
  date_of_joining : Option Date
deriving DecidableEq, Repr

/-- The `status = active` literal. -/
def activeStatus : JsStr := 'a' :: 'c' :: 't' :: 'i' :: 'v' :: 'e' :: []

/-- A row of `payroll.compensation_structures` (columns used by the
preview route). -/
structure CompensationStructure where
  tenant_id : Nat
  employee_id : Nat
  effective_from : Date
  basic_salary : ℚ
  hra : ℚ
  special_allowance : ℚ
deriving DecidableEq, Repr

/-- Tenant statutory rates from `payroll.payroll_settings`. -/
structure PayrollSettings where
  pf_rate : ℚ
  esi_rate : ℚ
  pt_rate : ℚ
  tds_threshold : ℚ
deriving DecidableEq, Repr

/-- Fallback settings used when the tenant has no settings row
(payroll-service.js lines 1350-1355). -/
def defaultSettings : PayrollSettings :=
  { pf_rate := 12, esi_rate := 3.25, pt_rate := 200, tds_threshold := 250000 }

/-- Last day of the payroll month: `new Date(cycle.year, cycle.month, 0)`
(payroll-service.js line 1343). -/
def payrollMonthEnd (year month : Int) : Date :=
  ⟨year, month, daysInMonth year month⟩

/-- Employee filter of the preview route (payroll-service.js lines
1358-1366): same tenant, `active` status, and no joining date or a joining
date on or before the month end. -/
def previewEmployeeSelected (e : Employee) (tenantId : Nat)
    (monthEnd : Date) : Bool :=
  e.tenant_id == tenantId && e.status == activeStatus &&
  (e.date_of_joining.isNone ||
    (e.date_of_joining.getD monthEnd).leb monthEnd)

/-- The compensation lookup of the preview route (payroll-service.js lines
1371-1379): among rows for the employee and tenant effective on or before
the month end, the one with the latest `effective_from`
(`ORDER BY effective_from DESC LIMIT 1`). -/
def latestCompensation (comps : List CompensationStructure)
    (employeeId tenantId : Nat) (monthEnd : Date) :
    Option CompensationStructure :=
  (comps.filter (fun c =>
    c.employee_id == employeeId && c.tenant_id == tenantId &&
    c.effective_from.leb monthEnd)).foldl
    (fun acc c =>
      match acc with
      | none => some c
      | some a => if a.effective_from.leb c.effective_from &&
          !(c.effective_from == a.effective_from) then some c else some a)
    none

/-- One computed line of the preview response (payroll-service.js lines
1411-1429). -/
structure PayrollItemCalc where
  employee_id : Nat
  basic_salary : ℚ
  hra : ℚ
  special_allowance : ℚ
  gross_salary : ℚ
  pf_deduction : ℚ
  esi_deduction : ℚ
  tds_deduction : ℚ
  pt_deduction : ℚ
  deductions : ℚ
  net_salary : ℚ
  lop_days : ℚ
  paid_days : ℚ
  total_working_days : ℚ
deriving DecidableEq, Repr

/-- The per-employee arithmetic of the preview route (payroll-service.js
lines 1384-1429): proration by paid days, then PF, ESI (hardcoded 21000
threshold, inclusive), PT (`|| 200` default when the configured rate is
zero) and TDS (strict comparison of annualized income against the tenant
threshold). -/
def computePayrollItem (settings : PayrollSettings)
    (employeeId : Nat) (monthlyBasic monthlyHRA monthlySA : ℚ)
    (lop : LopResult) : PayrollItemCalc :=
  let grossSalary := monthlyBasic + monthlyHRA + monthlySA
  let dailyRate := grossSalary / lop.totalWorkingDays
  let adjustedGross := dailyRate * lop.paidDays
  let adjustmentRatio := lop.paidDays / lop.totalWorkingDays
  let pfDeduction := (monthlyBasic * adjustmentRatio * settings.pf_rate) / 100
  let esiDeduction := if adjustedGross ≤ 21000 then (adjustedGross * 0.75) / 100 else 0
  let ptDeduction := if settings.pt_rate == 0 then 200 else settings.pt_rate
  let annualIncome := adjustedGross * 12
  let tdsDeduction := if annualIncome > settings.tds_threshold
    then ((annualIncome - settings.tds_threshold) * 5) / 100 / 12
    else 0
  let totalDeductions := pfDeduction + esiDeduction + ptDeduction + tdsDeduction
  { employee_id := employeeId
    basic_salary := monthlyBasic * adjustmentRatio
    hra := monthlyHRA * adjustmentRatio
    special_allowance := monthlySA * adjustmentRatio
    gross_salary := adjustedGross
    pf_deduction := pfDeduction
    esi_deduction := esiDeduction
    tds_deduction := tdsDeduction
    pt_deduction := ptDeduction
    deductions := totalDeductions
    net_salary := adjustedGross - totalDeductions
    lop_days := lop.lopDays
    paid_days := lop.paidDays
    total_working_days := lop.totalWorkingDays }

/-- The preview loop of `GET /payroll-cycles/:cycleId/preview`
(payroll-service.js lines 1357-1430): selected employees with a
compensation row effective by month end each yield one computed item;
employees without one are skipped (`continue`). -/
def previewItems (employees : List Employee)
    (comps : List CompensationStructure) (leaves : List LeaveRequest)
    (atts : List AttendanceRecord) (settings : PayrollSettings)
    (tenantId : Nat) (cycleMonth cycleYear : Int) : List PayrollItemCalc :=
  let monthEnd := payrollMonthEnd cycleYear cycleMonth
  (employees.filter (fun e => previewEmployeeSelected e tenantId monthEnd)).filterMap
    (fun e =>
      (latestCompensation comps e.id tenantId monthEnd).map (fun comp =>
        computePayrollItem settings e.id comp.basic_salary comp.hra
          comp.special_allowance
          (calculateLopAndPaidDays leaves atts tenantId e.id cycleMonth
            cycleYear)))

/-- A stored row of `payroll.payroll_items` (columns relevant to the
self-service payslip routes). -/
structure PayrollItemRow where
  id : Nat
  tenant_id : Nat
  payroll_cycle_id : Nat
  employee_id : Nat
  net_salary : ℚ
deriving DecidableEq, Repr

/-- Embedding of `GET /payslips` (payroll-service.js lines 439-496): resolve the
requesting user to a payroll employee by tenant and email (`LIMIT 1`); an
unmatched email yields an empty list, otherwise the stored items are
filtered by that employee id and the tenant id. -/
def getPayslips (employees : List Employee) (items : List PayrollItemRow)
    (tenantId : Nat) (email : JsStr) : List PayrollItemRow :=
  match (employees.filter (fun e =>
      e.tenant_id == tenantId && e.email == email)).head? with
  | none => []
  | some emp =>
    items.filter (fun it =>
      it.employee_id == emp.id && it.tenant_id == tenantId)

/-- The `payroll.payroll_status` enum. -/
inductive PayrollStatus where
  | draft | pending_approval | approved | processing | completed | failed
deriving DecidableEq, Repr

/-- The text form of a cycle status, as it appears in SQL literals and in
interpolated error messages. -/
def statusText : PayrollStatus → JsStr
  | .draft => "draft".toList
  | .pending_approval => "pending_approval".toList
  | .approved => "approved".toList
  | .processing => "processing".toList
  | .completed => "completed".toList
  | .failed => "failed".toList

/-- A row of `payroll.payroll_cycles` (columns used by the lifecycle
routes). -/
structure PayrollCycle where
  id : Nat
  tenant_id : Nat
  month : Int
  year : Int
  status : PayrollStatus
  approved_by : Option Nat
deriving DecidableEq, Repr

/-- The single-quote character of the interpolated JavaScript message. -/
def singleQuote : Char := Char.ofNat 39

/-- The error message of the process route for a non-approved cycle
(payroll-service.js lines 893-897), with the current status interpolated
between single quotes. -/
def processErrorMessage (s : PayrollStatus) : JsStr :=
  "Cannot process payroll. Current status is ".toList ++
  (singleQuote :: statusText s) ++ (singleQuote :: ". Only ".toList) ++
  (singleQuote :: "approved".toList) ++
  (singleQuote :: " payroll can be processed.".toList)

/-- Cycle lookup by id and tenant (`WHERE id = $1 AND tenant_id = $2`). -/
def findCycle (db : List PayrollCycle) (cycleId tenantId : Nat) :
    Option PayrollCycle :=
  (db.filter (fun c => c.id == cycleId && c.tenant_id == tenantId)).head?

/-- Responses of the process route that the embedding distinguishes. -/
inductive ProcessResponse where
  | notFound
  | badRequest (message : JsStr)
  | success
deriving DecidableEq, Repr

/-- Embedding of `POST /payroll-cycles/:cycleId/process` (payroll-service.js lines
876-923): 404 when the cycle is missing, a 400 message naming the current
status when it is not `approved`, otherwise the status is set to
`processing`. -/
def processCycleHandler (db : List PayrollCycle) (cycleId tenantId : Nat) :
    ProcessResponse × List PayrollCycle :=
  match findCycle db cycleId tenantId with
  | none => (.notFound, db)
  | some cycle =>
    if cycle.status = PayrollStatus.approved then
      (.success, db.map (fun c =>
        if c.id == cycleId && c.tenant_id == tenantId then
          { c with status := PayrollStatus.processing } else c))
    else
      (.badRequest (processErrorMessage cycle.status), db)

/-- Embedding of `POST /payroll-cycles/:cycleId/submit` (payroll-service.js lines
1439-1455): an unconditional `UPDATE ... SET status = pending_approval`
keyed only on id and tenant. -/
def submitCycleHandler (db : List PayrollCycle) (cycleId tenantId : Nat) :
    List PayrollCycle :=
  db.map (fun c =>
    if c.id == cycleId && c.tenant_id == tenantId then
      { c with status := PayrollStatus.pending_approval } else c)

/-- Embedding of `POST /payroll-cycles/:cycleId/approve` (payroll-service.js lines
1457-1473): an unconditional `UPDATE ... SET status = approved,
approved_by = userId` keyed only on id and tenant. -/
def approveCycleHandler (db : List PayrollCycle)
    (userId cycleId tenantId : Nat) : List PayrollCycle :=
  db.map (fun c =>
    if c.id == cycleId && c.tenant_id == tenantId then
      { c with status := PayrollStatus.approved, approved_by := some userId }
    else c)

/-- Embedding of `POST /payroll-cycles/:cycleId/reject` (payroll-service.js lines
1475-1492): an unconditional `UPDATE ... SET status = draft` keyed only on
id and tenant. -/
def rejectCycleHandler (db : List PayrollCycle) (cycleId tenantId : Nat) :
    List PayrollCycle :=
  db.map (fun c =>
    if c.id == cycleId && c.tenant_id == tenantId then
      { c with status := PayrollStatus.draft } else c)

/-- Whether a cycle row for the same tenant, month and year already
exists; the database constraint `UNIQUE(tenant_id, month, year)` on
`payroll.payroll_cycles` raises error 23505 exactly in this case. -/
def cycleConflict (db : List PayrollCycle) (tenantId : Nat)
    (month year : Int) : Bool :=
  db.any (fun c =>
    c.tenant_id == tenantId && c.month == month && c.year == year)

/-- Responses of the create route that the embedding distinguishes. -/
inductive CreateCycleResponse where
  | created (cycle : PayrollCycle)
  | conflict409
deriving DecidableEq, Repr

/-- Embedding of `POST /payroll-cycles` (payroll-service.js lines 378-433): an insert
guarded by the unique constraint; a 23505 unique violation is mapped to a
409 conflict response and nothing is inserted, otherwise the new `draft`
row is stored. -/
def createCycleHandler (db : List PayrollCycle) (tenantId newId : Nat)
    (month year : Int) : CreateCycleResponse × List PayrollCycle :=
  if cycleConflict db tenantId month year then
    (.conflict409, db)
  else
    let c : PayrollCycle :=
      { id := newId, tenant_id := tenantId, month := month, year := year,
        status := PayrollStatus.draft, approved_by := none }
    (.created c, db ++ [c])

/-- The `(tenant_id, month, year)` key of a cycle row. -/
def cycleKey (c : PayrollCycle) : Nat × Int × Int :=
  (c.tenant_id, c.month, c.year)

/-- The schema invariant of `UNIQUE(tenant_id, month, year)`: no two rows
share a key. -/
def cyclesUnique (db : List PayrollCycle) : Prop :=
  db.Pairwise (fun a b => cycleKey a ≠ cycleKey b)

/-- A JavaScript field that may be absent, `null`, or a number (the
salary-shaped fields of an employee object). -/
inductive JsField where
  | undef
  | jsnull
  | num (value : ℚ)
deriving DecidableEq, Repr

/-- The statement `if (masked.f !== undefined) masked.f = null`
(dataMasking.js lines 100-111). -/
def maskSalaryField : JsField → JsField
  | .undef => .undef
  | _ => .jsnull

/-- JavaScript truthiness of an optional string: `null`/`undefined` and
the empty string are falsy. -/
def truthy : Option JsStr → Bool
  | none => false
  | some s => !s.isEmpty

/-- The call `replace(/\D/g, "")`: keep only digits. -/
def cleanDigits (s : JsStr) : JsStr := s.filter Char.isDigit

/-- The call `slice(-4)` of a string of length at least 4. -/
def lastFour (s : JsStr) : JsStr := s.drop (s.length - 4)

/-- Embedding of `maskBankAccount` (dataMasking.js lines 13-25): falsy input maps to
`null`; fewer than 4 digits map to a fixed placeholder; otherwise the
last 4 digits are kept behind a fixed prefix. -/
def maskBankAccount : Option JsStr → Option JsStr
  | none => none
  | some s =>
    if s.isEmpty then none
    else
      let cleaned := cleanDigits s
      if cleaned.length < 4 then some "****".toList
      else some ("...-XX-".toList ++ lastFour cleaned)

/-- Embedding of `maskPAN` (dataMasking.js lines 32-44): falsy input maps to `null`;
the input is uppercased and stripped of whitespace; fewer than 4
remaining characters map to `XXXX`; otherwise the last 4 characters are
kept behind a five-X prefix. -/
def maskPAN : Option JsStr → Option JsStr
  | none => none
  | some s =>
    if s.isEmpty then none
    else
      let cleaned := (s.map Char.toUpper).filter (fun c => !c.isWhitespace)
      if cleaned.length < 4 then some "XXXX".toList
      else some ("XXXXX".toList ++ lastFour cleaned)

/-- Embedding of `maskAadhaar` (dataMasking.js lines 51-63): falsy input maps to
`null`; fewer than 4 digits map to a fixed placeholder; otherwise the
last 4 digits are kept behind a fixed grouped prefix. -/
def maskAadhaar : Option JsStr → Option JsStr
  | none => none
  | some s =>
    if s.isEmpty then none
    else
      let cleaned := cleanDigits s
      if cleaned.length < 4 then some "XXXX XXXX XXXX".toList
      else some ("XXXX XXXX ".toList ++ lastFour cleaned)

/-- An employee object as seen by the masking layer: sensitive string
fields, salary-shaped fields, and a non-sensitive field that masking must
leave untouched. -/
structure EmployeeRecord where
  full_name : Option JsStr
  bank_account_number : Option JsStr
  bank_ifsc : Option JsStr
  bank_name : Option JsStr
  pan_number : Option JsStr
  aadhaar_number : Option JsStr
  ctc : JsField
  basic_salary : JsField
  gross_salary : JsField
  net_salary : JsField
deriving DecidableEq, Repr

/-- Embedding of `maskEmployeeData` (dataMasking.js lines 84-115): for HR callers the
object is returned as a plain copy; otherwise the bank, PAN, Aadhaar and
salary fields are replaced and every other field is kept.  The source
builds a fresh object with the spread operator, so the input is never
mutated; the embedding is a pure function of the input record. -/
def maskEmployeeData (employee : EmployeeRecord) (isHR : Bool) :
    EmployeeRecord :=
  if isHR then employee
  else
    { employee with
      bank_account_number := maskBankAccount employee.bank_account_number
      bank_ifsc := if truthy employee.bank_ifsc then some "XXXX".toList else none
      bank_name := if truthy employee.bank_name then some "****".toList else none
      pan_number := maskPAN employee.pan_number
      aadhaar_number := maskAadhaar employee.aadhaar_number
      ctc := maskSalaryField employee.ctc
      basic_salary := maskSalaryField employee.basic_salary
      gross_salary := maskSalaryField employee.gross_salary
      net_salary := maskSalaryField employee.net_salary }

/-- Inputs on which the PAN mask is stable under repetition: absent and
empty values, and values that keep at least 4 characters after
uppercasing and whitespace removal.  A nonempty PAN with fewer than 4
such characters is mapped to the 4-character placeholder, which the mask
then treats as a valid PAN. -/
def panMaskStable : Option JsStr → Prop
  | none => True
  | some s => s = [] ∨
      4 ≤ ((s.map Char.toUpper).filter (fun c => !c.isWhitespace)).length

/-- Payroll roles assigned during SSO provisioning. -/
inductive PayrollRole where
  | payroll_admin
  | payroll_employee
deriving DecidableEq, Repr

/-- The literal admin set of `mapHrToPayrollRole` in the SSO middleware:
`new Set(["CEO", "Admin", "HR", "ceo", "admin", "hr"])` (exact string
membership, no normalisation). -/
def adminRoleSet : List JsStr :=
  ["CEO".toList, "Admin".toList, "HR".toList,
   "ceo".toList, "admin".toList, "hr".toList]

/-- Embedding of `mapHrToPayrollRole(hrRoles)` from the SSO middleware: admin when some
asserted HR role is literally in the admin set, employee otherwise. -/
def mapHrToPayrollRole (hrRoles : List JsStr) : PayrollRole :=
  if hrRoles.any (fun role => adminRoleSet.contains role) then
    PayrollRole.payroll_admin
  else PayrollRole.payroll_employee

/-- The role mapping as the spec words it, for comparison with the source
function: a role name matching CEO, Admin or HR under case-insensitive
comparison makes the user an admin. -/
def mapHrToPayrollRoleSpec (hrRoles : List JsStr) : PayrollRole :=
  if hrRoles.any (fun role =>
      ["ceo".toList, "admin".toList, "hr".toList].contains
        (role.map Char.toLower)) then
    PayrollRole.payroll_admin
  else PayrollRole.payroll_employee

/-- Text form of a payroll role, as carried in the token. -/
def roleText : PayrollRole → JsStr
  | .payroll_admin => "payroll_admin".toList
  | .payroll_employee => "payroll_employee".toList

/-- The expression `payload.payroll_role || mapHrToPayrollRole(roles)` in
`verifyHrSsoToken`: the explicitly asserted role wins when truthy,
otherwise the role derived from the HR roles. -/
def ssoPayrollRole (payrollRoleClaim : Option JsStr)
    (roles : List JsStr) : JsStr :=
  match payrollRoleClaim with
  | some s => if s.isEmpty then roleText (mapHrToPayrollRole roles) else s
  | none => roleText (mapHrToPayrollRole roles)

/-! Concrete inputs used by the witness theorems. -/

/-- Two approved loss-of-pay days in February 2023 (spec scenario 1
shape). -/
def febLopLeave : LeaveRequest :=
  { tenant_id := 1, employee_id := 2, leave_type := LeaveType.loss_of_pay,
    start_date := ⟨2023, 2, 10⟩, end_date := ⟨2023, 2, 11⟩, days := 2,
    status := LeaveStatus.approved }

/-- An approved loss-of-pay request spanning the January/February 2023
boundary, 7 stored days. -/
def spanningLopLeave : LeaveRequest :=
  { tenant_id := 1, employee_id := 2, leave_type := LeaveType.loss_of_pay,
    start_date := ⟨2023, 1, 28⟩, end_date := ⟨2023, 2, 3⟩, days := 7,
    status := LeaveStatus.approved }

/-- An active employee used by the preview and payslip witnesses. -/
def sampleEmployee : Employee :=
  { id := 2, tenant_id := 1, email := "a@b.c".toList,
    full_name := "A B".toList, employee_code := "E2".toList,
    status := activeStatus, date_of_joining := none }

/-- A compensation row whose monthly gross is exactly 21000. -/
def sampleCompensation : CompensationStructure :=
  { tenant_id := 1, employee_id := 2, effective_from := ⟨2023, 1, 1⟩,
    basic_salary := 21000, hra := 0, special_allowance := 0 }

/-- Settings whose TDS threshold equals the annualized sample income. -/
def thresholdSettings : PayrollSettings :=
  { pf_rate := 12, esi_rate := 3.25, pt_rate := 200,
    tds_threshold := 252000 }

/-- A stored payslip row of the sample employee. -/
def samplePayslip : PayrollItemRow :=
  { id := 10, tenant_id := 1, payroll_cycle_id := 5, employee_id := 2,
    net_salary := 20000 }

/-- A draft cycle, used to exercise the process-route guard. -/
def draftCycle : PayrollCycle :=
  { id := 7, tenant_id := 1, month := 2, year := 2023,
    status := PayrollStatus.draft, approved_by := none }

/-- The draft cycle after completion, used to show the lifecycle routes
ignore the current status. -/
def completedCycle : PayrollCycle :=
  { draftCycle with status := PayrollStatus.completed }

/-- An employee record whose PAN is shorter than 4 characters. -/
def shortPanRecord : EmployeeRecord :=
  { full_name := some "A B".toList, bank_account_number := none,
    bank_ifsc := none, bank_name := none,
    pan_number := some ('A' :: 'B' :: []), aadhaar_number := none,
    ctc := JsField.num 100, basic_salary := JsField.undef,
    gross_salary := JsField.undef, net_salary := JsField.undef }

/-- An employee record with a well-formed PAN and all other sensitive
fields populated. -/
def fullRecord : EmployeeRecord :=
  { full_name := some "A B".toList,
    bank_account_number := some "1234567890".toList,
    bank_ifsc := some "HDFC0001".toList,
    bank_name := some "HDFC".toList,
    pan_number := some "ABCDE1234F".toList,
    aadhaar_number := some "123456789012".toList,
    ctc := JsField.num 100, basic_salary := JsField.num 40,
    gross_salary := JsField.num 90, net_salary := JsField.num 80 }

/-- The preview line computed for the sample employee in February 2023
under the default settings (monthly gross exactly 21000). -/
def previewSampleItem : PayrollItemCalc :=
  computePayrollItem defaultSettings sampleEmployee.id
    sampleCompensation.basic_salary sampleCompensation.hra
    sampleCompensation.special_allowance
    (calculateLopAndPaidDays [] [] 1 sampleEmployee.id 2 2023)

/-- The preview line computed for the sample employee in February 2023
under settings whose TDS threshold equals the annualized income. -/
def previewThresholdItem : PayrollItemCalc :=
  computePayrollItem thresholdSettings sampleEmployee.id
    sampleCompensation.basic_salary sampleCompensation.hra
    sampleCompensation.special_allowance
    (calculateLopAndPaidDays [] [] 1 sampleEmployee.id 2 2023)

end Payroll

namespace Payroll

/-! Helper lemmas. -/

theorem lopResult_eta (leaves : List LeaveRequest)
    (atts : List AttendanceRecord) (tenantId employeeId : Nat)
    (month year : Int) :
    calculateLopAndPaidDays leaves atts tenantId employeeId month year =
      { lopDays := leaveLopDays leaves tenantId employeeId year month +
          (attendanceLopDays atts tenantId employeeId year month : ℚ)
        paidDays := max 0 ((daysInMonth year month : ℚ) -
          (leaveLopDays leaves tenantId employeeId year month +
            (attendanceLopDays atts tenantId employeeId year month : ℚ)))
        totalWorkingDays := (daysInMonth year month : ℚ) } := rfl

/-- C1: for every employee and cycle month, `calculateLopAndPaidDays`
sets `totalWorkingDays` to the calendar days of the month, `lopDays` to
the approved loss-of-pay leave sum plus the LOP attendance count, and
`paidDays` to `max(0, totalWorkingDays - lopDays)`; whenever
`0 ≤ lopDays ≤ totalWorkingDays` the paid days are exactly the
difference, and paid days are never negative. -/
theorem paidDays_clamped_never_negative (leaves : List LeaveRequest)
    (atts : List AttendanceRecord) (tenantId employeeId : Nat)
    (month year : Int) :
    (calculateLopAndPaidDays leaves atts tenantId employeeId month year).totalWorkingDays
      = (daysInMonth year month : ℚ) ∧
    (calculateLopAndPaidDays leaves atts tenantId employeeId month year).lopDays
      = leaveLopDays leaves tenantId employeeId year month +
        (attendanceLopDays atts tenantId employeeId year month : ℚ) ∧
    (calculateLopAndPaidDays leaves atts tenantId employeeId month year).paidDays
      = max 0
        ((calculateLopAndPaidDays leaves atts tenantId employeeId month year).totalWorkingDays -
          (calculateLopAndPaidDays leaves atts tenantId employeeId month year).lopDays) ∧
    0 ≤ (calculateLopAndPaidDays leaves atts tenantId employeeId month year).paidDays ∧
    (0 ≤ (calculateLopAndPaidDays leaves atts tenantId employeeId month year).lopDays →
      (calculateLopAndPaidDays leaves atts tenantId employeeId month year).lopDays ≤
        (calculateLopAndPaidDays leaves atts tenantId employeeId month year).totalWorkingDays →
      (calculateLopAndPaidDays leaves atts tenantId employeeId month year).paidDays =
        (calculateLopAndPaidDays leaves atts tenantId employeeId month year).totalWorkingDays -
          (calculateLopAndPaidDays leaves atts tenantId employeeId month year).lopDays) := by
  refine ⟨rfl, rfl, rfl, le_max_left 0 _, fun h1 h2 => ?_⟩
  rw [lopResult_eta] at h2 ⊢
  exact max_eq_right (sub_nonneg.mpr h2)

/-- Witness for C1 at the February 2023 example: 28 working days, 2 LOP
days, 26 paid days. -/
theorem paidDays_clamped_never_negative_witness :
    (calculateLopAndPaidDays [febLopLeave] [] 1 2 2 2023).paidDays =
      (calculateLopAndPaidDays [febLopLeave] [] 1 2 2 2023).totalWorkingDays -
        (calculateLopAndPaidDays [febLopLeave] [] 1 2 2 2023).lopDays :=
  (paidDays_clamped_never_negative [febLopLeave] [] 1 2 2 2023).2.2.2.2
    (by simp [calculateLopAndPaidDays, leaveLopDays, attendanceLopDays,
      febLopLeave, leaveRowSelected, leaveOverlapsMonth, firstOfMonth,
      Date.leb])
    (by
      simp [calculateLopAndPaidDays, leaveLopDays, attendanceLopDays,
        febLopLeave, leaveRowSelected, leaveOverlapsMonth, firstOfMonth,
        Date.leb, daysInMonth, isLeapYear]
      norm_num)

/-- C10: an approved loss-of-pay request that passes the month-overlap
filter contributes its full stored `days` value to the leave LOP sum of the month, joining the
sum, regardless of how many of its days fall inside the month. -/
theorem overlapping_leave_contributes_full_days
    (rest : List LeaveRequest) (r : LeaveRequest)
    (tenantId employeeId : Nat) (year month : Int)
    (ht : r.tenant_id = tenantId) (he : r.employee_id = employeeId)
    (hs : r.status = LeaveStatus.approved)
    (hl : r.leave_type = LeaveType.loss_of_pay)
    (ho : leaveOverlapsMonth r year month = true) :
    leaveLopDays (r :: rest) tenantId employeeId year month =
      r.days + leaveLopDays rest tenantId employeeId year month := by
  unfold leaveLopDays
  rw [List.filter_cons_of_pos]
  · simp [hl]
  · simp [leaveRowSelected, ht, he, hs, ho]

/-- Witness for C10: the 7-day request spanning January 28 to February 3
adds all 7 stored days to the LOP sum of January and again to that of
February. -/
theorem overlapping_leave_contributes_full_days_witness :
    (leaveLopDays [spanningLopLeave] 1 2 2023 1 =
      spanningLopLeave.days + leaveLopDays [] 1 2 2023 1) ∧
    (leaveLopDays [spanningLopLeave] 1 2 2023 2 =
      spanningLopLeave.days + leaveLopDays [] 1 2 2023 2) :=
  ⟨overlapping_leave_contributes_full_days [] spanningLopLeave 1 2 2023 1
      rfl rfl rfl rfl (by decide),
   overlapping_leave_contributes_full_days [] spanningLopLeave 1 2 2023 2
      rfl rfl rfl rfl (by decide)⟩

theorem computePayrollItem_esi_spec (settings : PayrollSettings) (eid : Nat)
    (b hra sa : ℚ) (lop : LopResult) :
    ((computePayrollItem settings eid b hra sa lop).esi_deduction =
        (computePayrollItem settings eid b hra sa lop).gross_salary * 0.75 / 100 ↔
      (computePayrollItem settings eid b hra sa lop).gross_salary ≤ 21000) ∧
    (21000 < (computePayrollItem settings eid b hra sa lop).gross_salary →
      (computePayrollItem settings eid b hra sa lop).esi_deduction = 0) := by
  set ag : ℚ := ((b + hra + sa) / lop.totalWorkingDays) * lop.paidDays with hag
  have hg : (computePayrollItem settings eid b hra sa lop).gross_salary = ag := rfl
  have he : (computePayrollItem settings eid b hra sa lop).esi_deduction =
      if ag ≤ 21000 then ag * 0.75 / 100 else 0 := rfl
  rw [hg, he]
  by_cases hc : ag ≤ 21000
  · rw [if_pos hc]
    exact ⟨⟨fun _ => hc, fun _ => rfl⟩, fun hlt => absurd hc (not_le.mpr hlt)⟩
  · rw [if_neg hc]
    push_neg at hc
    have h0 : (0 : ℚ) < ag := lt_trans (by norm_num) hc
    have hpos : (0 : ℚ) < ag * 0.75 / 100 := by positivity
    exact ⟨⟨fun heq => absurd heq (ne_of_lt hpos),
      fun hle => absurd hle (not_le.mpr hc)⟩, fun _ => rfl⟩

/-- C2: every line item of the payroll preview carries an ESI deduction
equal to adjustedGross × 0.75 / 100 exactly when adjustedGross ≤ 21000
(the boundary is inclusive), and an ESI deduction of 0 whenever
adjustedGross exceeds 21000. -/
theorem preview_esi_threshold_inclusive (employees : List Employee)
    (comps : List CompensationStructure) (leaves : List LeaveRequest)
    (atts : List AttendanceRecord) (settings : PayrollSettings)
    (tenantId : Nat) (cycleMonth cycleYear : Int) (item : PayrollItemCalc)
    (hmem : item ∈ previewItems employees comps leaves atts settings
      tenantId cycleMonth cycleYear) :
    (item.esi_deduction = item.gross_salary * 0.75 / 100 ↔
      item.gross_salary ≤ 21000) ∧
    (21000 < item.gross_salary → item.esi_deduction = 0) := by
  simp only [previewItems, List.mem_filterMap, Option.map_eq_some'] at hmem
  obtain ⟨e, -, comp, -, hitem⟩ := hmem
  subst hitem
  exact computePayrollItem_esi_spec settings e.id comp.basic_salary
    comp.hra comp.special_allowance _

/-- Witness for C2: the sample preview line with monthly gross exactly
21000 satisfies the ESI boundary property. -/
theorem preview_esi_threshold_inclusive_witness :
    (previewSampleItem.esi_deduction =
        previewSampleItem.gross_salary * 0.75 / 100 ↔
      previewSampleItem.gross_salary ≤ 21000) ∧
    (21000 < previewSampleItem.gross_salary →
      previewSampleItem.esi_deduction = 0) :=
  preview_esi_threshold_inclusive [sampleEmployee] [sampleCompensation]
    [] [] defaultSettings 1 2 2023 previewSampleItem
    (List.mem_cons_self _ _)

theorem computePayrollItem_tds_spec (settings : PayrollSettings) (eid : Nat)
    (b hra sa : ℚ) (lop : LopResult) :
    ((computePayrollItem settings eid b hra sa lop).gross_salary * 12 >
        settings.tds_threshold →
      (computePayrollItem settings eid b hra sa lop).tds_deduction =
        (((computePayrollItem settings eid b hra sa lop).gross_salary * 12 -
          settings.tds_threshold) * 5) / 100 / 12) ∧
    (¬ (computePayrollItem settings eid b hra sa lop).gross_salary * 12 >
        settings.tds_threshold →
      (computePayrollItem settings eid b hra sa lop).tds_deduction = 0) := by
  set ag : ℚ := ((b + hra + sa) / lop.totalWorkingDays) * lop.paidDays with hag
  have hg : (computePayrollItem settings eid b hra sa lop).gross_salary = ag := rfl
  have ht : (computePayrollItem settings eid b hra sa lop).tds_deduction =
      if ag * 12 > settings.tds_threshold
      then ((ag * 12 - settings.tds_threshold) * 5) / 100 / 12
      else 0 := rfl
  rw [hg, ht]
  by_cases hc : ag * 12 > settings.tds_threshold
  · rw [if_pos hc]
    exact ⟨fun _ => rfl, fun hn => absurd hc hn⟩
  · rw [if_neg hc]
    exact ⟨fun hgt => absurd hgt hc, fun _ => rfl⟩

/-- C3: every line item of the payroll preview carries a TDS deduction of
((adjustedGross × 12 − tds_threshold) × 5) / 100 / 12 when the annualized
income strictly exceeds the tenant threshold, and 0 otherwise; in
particular, annualized income exactly equal to the threshold yields
TDS = 0. -/
theorem preview_tds_strict_threshold (employees : List Employee)
    (comps : List CompensationStructure) (leaves : List LeaveRequest)
    (atts : List AttendanceRecord) (settings : PayrollSettings)
    (tenantId : Nat) (cycleMonth cycleYear : Int) (item : PayrollItemCalc)
    (hmem : item ∈ previewItems employees comps leaves atts settings
      tenantId cycleMonth cycleYear) :
    (item.gross_salary * 12 > settings.tds_threshold →
      item.tds_deduction =
        ((item.gross_salary * 12 - settings.tds_threshold) * 5) / 100 / 12) ∧
    (¬ item.gross_salary * 12 > settings.tds_threshold →
      item.tds_deduction = 0) ∧
    (item.gross_salary * 12 = settings.tds_threshold →
      item.tds_deduction = 0) := by
  simp only [previewItems, List.mem_filterMap, Option.map_eq_some'] at hmem
  obtain ⟨e, -, comp, -, hitem⟩ := hmem
  subst hitem
  obtain ⟨h1, h2⟩ := computePayrollItem_tds_spec settings e.id
    comp.basic_salary comp.hra comp.special_allowance _
  exact ⟨h1, h2, fun heq => h2 (by rw [heq]; exact lt_irrefl _)⟩

/-- Witness for C3 (spec scenario 4): annualized income exactly at the
threshold yields a TDS deduction of 0. -/
theorem preview_tds_strict_threshold_witness :
    previewThresholdItem.tds_deduction = 0 :=
  (preview_tds_strict_threshold [sampleEmployee] [sampleCompensation]
    [] [] thresholdSettings 1 2 2023 previewThresholdItem
    (List.mem_cons_self _ _)).2.2
    (by
      simp [previewThresholdItem, computePayrollItem,
        calculateLopAndPaidDays, leaveLopDays, attendanceLopDays,
        daysInMonth, isLeapYear, sampleEmployee, sampleCompensation,
        thresholdSettings]
      norm_num)

/-- C4: every row returned by `GET /payslips` belongs to the payroll
employee record that the requester email resolves to: the row carries
the employee id of an employee row of the requester tenant whose email
equals the requester email. -/
theorem payslips_self_only (employees : List Employee)
    (items : List PayrollItemRow) (tenantId : Nat) (email : JsStr)
    (row : PayrollItemRow)
    (hrow : row ∈ getPayslips employees items tenantId email) :
    ∃ e, e ∈ employees ∧ e.tenant_id = tenantId ∧ e.email = email ∧
      row.employee_id = e.id ∧ row.tenant_id = tenantId := by
  unfold getPayslips at hrow
  rcases hl : List.filter (fun e =>
      e.tenant_id == tenantId && e.email == email) employees with
    - | ⟨emp, restEmps⟩
  · rw [hl] at hrow
    simp at hrow
  · rw [hl] at hrow
    simp only [List.head?] at hrow
    rw [List.mem_filter] at hrow
    obtain ⟨-, hpred⟩ := hrow
    have hemp : emp ∈ List.filter (fun e =>
        e.tenant_id == tenantId && e.email == email) employees := by
      rw [hl]; exact List.mem_cons_self _ _
    rw [List.mem_filter] at hemp
    obtain ⟨hmem, hsel⟩ := hemp
    simp only [Bool.and_eq_true, beq_iff_eq] at hpred hsel
    exact ⟨emp, hmem, hsel.1, hsel.2, hpred.1, hpred.2⟩

/-- Witness for C4: the sample payslip returned for the sample employee
resolves to the own id of that employee. -/
theorem payslips_self_only_witness :
    ∃ e, e ∈ [sampleEmployee] ∧ e.tenant_id = 1 ∧
      e.email = "a@b.c".toList ∧ samplePayslip.employee_id = e.id ∧
      samplePayslip.tenant_id = 1 :=
  payslips_self_only [sampleEmployee] [samplePayslip] 1 "a@b.c".toList
    samplePayslip (List.mem_cons_self _ _)

/-- C5: the process action succeeds only from the `approved` status; on
any other status it returns a 400 response whose message contains the
current status text of the cycle and leaves the stored cycles unchanged. -/
theorem process_requires_approved (db : List PayrollCycle)
    (cycleId tenantId : Nat) (cycle : PayrollCycle)
    (hfind : findCycle db cycleId tenantId = some cycle) :
    (cycle.status = PayrollStatus.approved →
      (processCycleHandler db cycleId tenantId).1 =
        ProcessResponse.success) ∧
    (cycle.status ≠ PayrollStatus.approved →
      processCycleHandler db cycleId tenantId =
        (ProcessResponse.badRequest (processErrorMessage cycle.status), db) ∧
      ∃ pre post, processErrorMessage cycle.status =
        pre ++ statusText cycle.status ++ post) := by
  unfold processCycleHandler
  rw [hfind]
  dsimp only
  constructor
  · intro h
    rw [if_pos h]
  · intro h
    rw [if_neg h]
    refine ⟨rfl,
      "Cannot process payroll. Current status is ".toList ++ [singleQuote],
      (singleQuote :: ". Only ".toList) ++
        (singleQuote :: "approved".toList) ++
        (singleQuote :: " payroll can be processed.".toList), ?_⟩
    simp [processErrorMessage, List.append_assoc]

/-- Witness for C5: processing the draft cycle fails with a message that
names the `draft` status and leaves the table unchanged. -/
theorem process_requires_approved_witness :
    (draftCycle.status = PayrollStatus.approved →
      (processCycleHandler [draftCycle] 7 1).1 =
        ProcessResponse.success) ∧
    (draftCycle.status ≠ PayrollStatus.approved →
      processCycleHandler [draftCycle] 7 1 =
        (ProcessResponse.badRequest (processErrorMessage draftCycle.status),
          [draftCycle]) ∧
      ∃ pre post, processErrorMessage draftCycle.status =
        pre ++ statusText draftCycle.status ++ post) :=
  process_requires_approved [draftCycle] 7 1 draftCycle rfl

/-- C9: the submit, approve and reject routes update a matching cycle row
with no precondition on its current status — from any status, submit
yields `pending_approval`, approve yields `approved`, reject yields
`draft` — while the process action succeeds exactly when the status is
`approved`. -/
theorem lifecycle_updates_unconditional (cycle : PayrollCycle)
    (userId cycleId tenantId : Nat) (hid : cycle.id = cycleId)
    (ht : cycle.tenant_id = tenantId) :
    submitCycleHandler [cycle] cycleId tenantId =
      [{ cycle with status := PayrollStatus.pending_approval }] ∧
    approveCycleHandler [cycle] userId cycleId tenantId =
      [({ cycle with
          status := PayrollStatus.approved,
          approved_by := some userId } : PayrollCycle)] ∧
    rejectCycleHandler [cycle] cycleId tenantId =
      [{ cycle with status := PayrollStatus.draft }] ∧
    ((processCycleHandler [cycle] cycleId tenantId).1 =
        ProcessResponse.success ↔
      cycle.status = PayrollStatus.approved) := by
  subst hid ht
  refine ⟨?_, ?_, ?_, ?_⟩
  · simp [submitCycleHandler]
  · simp [approveCycleHandler]
  · simp [rejectCycleHandler]
  · unfold processCycleHandler
    have hfind : findCycle [cycle] cycle.id cycle.tenant_id = some cycle := by
      simp [findCycle]
    rw [hfind]
    dsimp only
    by_cases hs : cycle.status = PayrollStatus.approved
    · rw [if_pos hs]
      exact ⟨fun _ => hs, fun _ => rfl⟩
    · rw [if_neg hs]
      exact ⟨fun hbad => ProcessResponse.noConfusion hbad,
        fun h => absurd h hs⟩

/-- Witness for C9: a `completed` cycle is still moved by submit, approve
and reject, and cannot be processed. -/
theorem lifecycle_updates_unconditional_witness :
    submitCycleHandler [completedCycle] 7 1 =
      [{ completedCycle with status := PayrollStatus.pending_approval }] ∧
    approveCycleHandler [completedCycle] 3 7 1 =
      [({ completedCycle with
          status := PayrollStatus.approved,
          approved_by := some 3 } : PayrollCycle)] ∧
    rejectCycleHandler [completedCycle] 7 1 =
      [{ completedCycle with status := PayrollStatus.draft }] ∧
    ((processCycleHandler [completedCycle] 7 1).1 =
        ProcessResponse.success ↔
      completedCycle.status = PayrollStatus.approved) :=
  lifecycle_updates_unconditional completedCycle 3 7 1 rfl rfl

/-- C6: the `(tenant_id, month, year)` uniqueness invariant is preserved
by cycle creation, and creating a cycle whose key already exists yields
the 409 conflict response and leaves the table unchanged, so at most one
row per key ever exists. -/
theorem cycle_creation_unique (db : List PayrollCycle)
    (tenantId newId : Nat) (month year : Int) (hinv : cyclesUnique db) :
    cyclesUnique (createCycleHandler db tenantId newId month year).2 ∧
    (∀ c ∈ db, c.tenant_id = tenantId → c.month = month → c.year = year →
      createCycleHandler db tenantId newId month year =
        (CreateCycleResponse.conflict409, db)) := by
  constructor
  · unfold createCycleHandler
    by_cases hc : cycleConflict db tenantId month year
    · rw [if_pos hc]
      exact hinv
    · rw [if_neg hc]
      dsimp only
      rw [cyclesUnique, List.pairwise_append]
      refine ⟨hinv, List.pairwise_singleton _ _, ?_⟩
      intro a ha b hb
      simp only [List.mem_singleton] at hb
      subst hb
      unfold cycleConflict at hc
      rw [List.any_eq_true] at hc
      push_neg at hc
      intro hkey
      simp only [cycleKey, Prod.mk.injEq] at hkey
      exact hc a ha (by simp [hkey.1, hkey.2.1, hkey.2.2])
  · intro c hcmem ht hm hy
    have hc : cycleConflict db tenantId month year = true := by
      simp only [cycleConflict, List.any_eq_true]
      exact ⟨c, hcmem, by simp [ht, hm, hy]⟩
    unfold createCycleHandler
    rw [if_pos hc]

/-- Witness for C6: inserting a second February 2023 cycle for tenant 1
next to the existing one yields a 409 and no new row. -/
theorem cycle_creation_unique_witness :
    cyclesUnique (createCycleHandler [draftCycle] 1 9 2 2023).2 ∧
    (∀ c ∈ [draftCycle], c.tenant_id = 1 → c.month = 2 → c.year = 2023 →
      createCycleHandler [draftCycle] 1 9 2 2023 =
        (CreateCycleResponse.conflict409, [draftCycle])) :=
  cycle_creation_unique [draftCycle] 1 9 2 2023
    (List.pairwise_singleton _ _)

theorem char_toNat_ofNat_valid {n : Nat} (h : n < 55296) :
    (Char.ofNat n).toNat = n := by
  simp only [Char.ofNat]
  rw [dif_pos (Or.inl h)]
  rfl

theorem char_toUpper_idem (c : Char) : c.toUpper.toUpper = c.toUpper := by
  have heq : ∀ d : Char, d.toUpper =
      if d.toNat ≥ 97 ∧ d.toNat ≤ 122 then Char.ofNat (d.toNat - 32) else d :=
    fun d => rfl
  by_cases h : c.toNat ≥ 97 ∧ c.toNat ≤ 122
  · rw [heq c, if_pos h]
    have h2 := h.2
    have hlt : c.toNat - 32 < 55296 := by omega
    rw [heq (Char.ofNat (c.toNat - 32)), char_toNat_ofNat_valid hlt,
      if_neg (by omega)]
  · rw [heq c, if_neg h, heq c, if_neg h]

theorem maskBankAccount_fixpoint (d : JsStr)
    (hd : ∀ c ∈ d, Char.isDigit c = true) (hlen : d.length = 4) :
    maskBankAccount (some ("...-XX-".toList ++ d)) =
      some ("...-XX-".toList ++ d) := by
  have hne : ("...-XX-".toList ++ d).isEmpty = false := rfl
  have hclean : cleanDigits ("...-XX-".toList ++ d) = d := by
    unfold cleanDigits
    rw [List.filter_append,
      show List.filter Char.isDigit "...-XX-".toList = [] from rfl,
      List.filter_eq_self.mpr hd, List.nil_append]
  simp only [maskBankAccount, hne, Bool.false_eq_true, if_false, hclean, hlen]
  norm_num [lastFour, hlen]

theorem maskBankAccount_idem (o : Option JsStr) :
    maskBankAccount (maskBankAccount o) = maskBankAccount o := by
  match o with
  | none => rfl
  | some s =>
    by_cases hs : s.isEmpty
    · have h1 : maskBankAccount (some s) = none := by
        simp [maskBankAccount, hs]
      rw [h1]
      rfl
    · by_cases hlen : (cleanDigits s).length < 4
      · have h1 : maskBankAccount (some s) = some "****".toList := by
          simp [maskBankAccount, hs, hlen]
        rw [h1]
        rfl
      · have h1 : maskBankAccount (some s) =
            some ("...-XX-".toList ++ lastFour (cleanDigits s)) := by
          simp [maskBankAccount, hs, hlen]
        rw [h1]
        refine maskBankAccount_fixpoint _ ?_ ?_
        · intro c hc
          have : c ∈ cleanDigits s := List.drop_subset _ _ hc
          exact (List.mem_filter.mp this).2
        · unfold lastFour
          rw [List.length_drop]
          omega

theorem maskAadhaar_fixpoint (d : JsStr)
    (hd : ∀ c ∈ d, Char.isDigit c = true) (hlen : d.length = 4) :
    maskAadhaar (some ("XXXX XXXX ".toList ++ d)) =
      some ("XXXX XXXX ".toList ++ d) := by
  have hne : ("XXXX XXXX ".toList ++ d).isEmpty = false := rfl
  have hclean : cleanDigits ("XXXX XXXX ".toList ++ d) = d := by
    unfold cleanDigits
    rw [List.filter_append,
      show List.filter Char.isDigit "XXXX XXXX ".toList = [] from rfl,
      List.filter_eq_self.mpr hd, List.nil_append]
  simp only [maskAadhaar, hne, Bool.false_eq_true, if_false, hclean, hlen]
  norm_num [lastFour, hlen]

theorem maskAadhaar_idem (o : Option JsStr) :
    maskAadhaar (maskAadhaar o) = maskAadhaar o := by
  match o with
  | none => rfl
  | some s =>
    by_cases hs : s.isEmpty
    · have h1 : maskAadhaar (some s) = none := by
        simp [maskAadhaar, hs]
      rw [h1]
      rfl
    · by_cases hlen : (cleanDigits s).length < 4
      · have h1 : maskAadhaar (some s) = some "XXXX XXXX XXXX".toList := by
          simp [maskAadhaar, hs, hlen]
        rw [h1]
        rfl
      · have h1 : maskAadhaar (some s) =
            some ("XXXX XXXX ".toList ++ lastFour (cleanDigits s)) := by
          simp [maskAadhaar, hs, hlen]
        rw [h1]
        refine maskAadhaar_fixpoint _ ?_ ?_
        · intro c hc
          have : c ∈ cleanDigits s := List.drop_subset _ _ hc
          exact (List.mem_filter.mp this).2
        · unfold lastFour
          rw [List.length_drop]
          omega

theorem maskPAN_fixpoint (d : JsStr)
    (hu : ∀ c ∈ d, c.toUpper = c)
    (hw : ∀ c ∈ d, (!c.isWhitespace) = true) (hlen : d.length = 4) :
    maskPAN (some ("XXXXX".toList ++ d)) = some ("XXXXX".toList ++ d) := by
  have hne : ("XXXXX".toList ++ d).isEmpty = false := rfl
  have hmapd : d.map Char.toUpper = d := by
    rw [List.map_congr_left (g := id) (fun a ha => hu a ha), List.map_id]
  have hmap : ("XXXXX".toList ++ d).map Char.toUpper =
      "XXXXX".toList ++ d := by
    rw [List.map_append,
      show "XXXXX".toList.map Char.toUpper = "XXXXX".toList from rfl, hmapd]
  have hfil : ("XXXXX".toList ++ d).filter (fun c => !c.isWhitespace) =
      "XXXXX".toList ++ d := by
    rw [List.filter_append,
      show "XXXXX".toList.filter (fun c => !c.isWhitespace) =
        "XXXXX".toList from rfl,
      List.filter_eq_self.mpr hw]
  have hcl : (("XXXXX".toList ++ d).map Char.toUpper).filter
      (fun c => !c.isWhitespace) = "XXXXX".toList ++ d := by
    rw [hmap, hfil]
  have hlentot : ("XXXXX".toList ++ d).length = 9 := by
    rw [List.length_append, hlen]
    rfl
  have hlf : lastFour ("XXXXX".toList ++ d) = d := by
    unfold lastFour
    rw [hlentot, show (9 : Nat) - 4 = "XXXXX".toList.length from rfl,
      List.drop_left]
  simp only [maskPAN, hne, Bool.false_eq_true, if_false, hcl, hlentot, hlf]
  norm_num

theorem maskPAN_stable_idem (p : Option JsStr) (hp : panMaskStable p) :
    maskPAN (maskPAN p) = maskPAN p := by
  match p with
  | none => rfl
  | some s =>
    rcases hp with he | hlen
    · subst he
      rfl
    · have hs : s.isEmpty = false := by
        rcases s with - | ⟨c, rest⟩
        · simp at hlen
        · rfl
      have hnotlt :
          ¬ ((s.map Char.toUpper).filter (fun c => !c.isWhitespace)).length < 4 := by
        omega
      have h1 : maskPAN (some s) = some ("XXXXX".toList ++
          lastFour ((s.map Char.toUpper).filter (fun c => !c.isWhitespace))) := by
        simp [maskPAN, hs, hnotlt]
      rw [h1]
      refine maskPAN_fixpoint _ ?_ ?_ ?_
      · intro c hc
        have hmem : c ∈ (s.map Char.toUpper).filter (fun c => !c.isWhitespace) :=
          List.drop_subset _ _ hc
        have hmc : c ∈ s.map Char.toUpper := (List.mem_filter.mp hmem).1
        obtain ⟨a, -, ha⟩ := List.mem_map.mp hmc
        rw [← ha]
        exact char_toUpper_idem a
      · intro c hc
        have hmem : c ∈ (s.map Char.toUpper).filter (fun c => !c.isWhitespace) :=
          List.drop_subset _ _ hc
        exact (List.mem_filter.mp hmem).2
      · unfold lastFour
        rw [List.length_drop]
        omega

theorem maskSalaryField_idem (v : JsField) :
    maskSalaryField (maskSalaryField v) = maskSalaryField v := by
  cases v <;> rfl

/-- C7 counterexample: a record whose PAN has fewer than 4 characters is
not a fixed point of double masking — the first pass yields the
placeholder `XXXX`, which the second pass masks again to `XXXXXXXXX` —
so masking is not idempotent for every record. -/
theorem mask_not_idempotent_counterexample :
    maskEmployeeData (maskEmployeeData shortPanRecord false) false ≠
      maskEmployeeData shortPanRecord false := by
  decide

/-- C7 amended: `maskEmployeeData` never mutates its input (it is a pure
copy in the embedding) and is idempotent on every record whose PAN is
absent, empty, or keeps at least 4 characters after uppercasing and
whitespace removal; the bank-account and Aadhaar fields are stable at
every length, and only a nonempty PAN shorter than 4 cleaned characters
breaks idempotence. -/
theorem mask_idempotent_on_stable_pan (e : EmployeeRecord)
    (hp : panMaskStable e.pan_number) :
    maskEmployeeData (maskEmployeeData e false) false =
      maskEmployeeData e false := by
  have hm : ∀ x : EmployeeRecord, maskEmployeeData x false =
      { x with
        bank_account_number := maskBankAccount x.bank_account_number,
        bank_ifsc := if truthy x.bank_ifsc then some "XXXX".toList else none,
        bank_name := if truthy x.bank_name then some "****".toList else none,
        pan_number := maskPAN x.pan_number,
        aadhaar_number := maskAadhaar x.aadhaar_number,
        ctc := maskSalaryField x.ctc,
        basic_salary := maskSalaryField x.basic_salary,
        gross_salary := maskSalaryField x.gross_salary,
        net_salary := maskSalaryField x.net_salary } := fun x => rfl
  rw [hm, hm e]
  dsimp only
  simp only [EmployeeRecord.mk.injEq]
  refine ⟨trivial, maskBankAccount_idem _, ?_, ?_,
    maskPAN_stable_idem _ hp, maskAadhaar_idem _, maskSalaryField_idem _,
    maskSalaryField_idem _, maskSalaryField_idem _, maskSalaryField_idem _⟩
  · rcases e.bank_ifsc with - | s
    · rfl
    · rcases s with - | ⟨c, cs⟩ <;> rfl
  · rcases e.bank_name with - | s
    · rfl
    · rcases s with - | ⟨c, cs⟩ <;> rfl

/-- Witness for the amended C7: the fully populated record with a valid
10-character PAN is masked idempotently. -/
theorem mask_idempotent_on_stable_pan_witness :
    maskEmployeeData (maskEmployeeData fullRecord false) false =
      maskEmployeeData fullRecord false :=
  mask_idempotent_on_stable_pan fullRecord (Or.inr (by decide))

/-- C8 counterexample: the asserted HR role name `Ceo` matches CEO under
case-insensitive comparison (the spec-worded mapping makes it an admin),
yet the source mapping derives `payroll_employee`, because the middleware
matches role names only against the six literal spellings of its admin
set. -/
theorem sso_role_case_counterexample :
    ssoPayrollRole none ["Ceo".toList] =
      roleText PayrollRole.payroll_employee ∧
    mapHrToPayrollRole ["Ceo".toList] = PayrollRole.payroll_employee ∧
    mapHrToPayrollRoleSpec ["Ceo".toList] = PayrollRole.payroll_admin := by
  decide

/-- C8 amended: when no payroll role is explicitly asserted (absent or
empty claim), the derived role is `payroll_admin` exactly when some
asserted HR role is literally one of the six strings CEO, Admin, HR,
ceo, admin, hr, and `payroll_employee` otherwise; other capitalizations
such as `Ceo` or `ADMIN` derive `payroll_employee`. -/
theorem sso_role_exact_match (roles : List JsStr) :
    (mapHrToPayrollRole roles = PayrollRole.payroll_admin ↔
      ∃ r ∈ roles, r ∈ adminRoleSet) ∧
    ssoPayrollRole none roles = roleText (mapHrToPayrollRole roles) ∧
    ssoPayrollRole (some []) roles = roleText (mapHrToPayrollRole roles) := by
  refine ⟨?_, rfl, rfl⟩
  unfold mapHrToPayrollRole
  by_cases hc : roles.any (fun role => adminRoleSet.contains role)
  · rw [if_pos hc]
    rw [List.any_eq_true] at hc
    obtain ⟨r, hr, hcon⟩ := hc
    exact ⟨fun _ => ⟨r, hr, List.elem_iff.mp hcon⟩, fun _ => rfl⟩
  · rw [if_neg hc]
    constructor
    · intro hbad
      exact PayrollRole.noConfusion hbad
    · intro hex
      exfalso
      apply hc
      rw [List.any_eq_true]
      obtain ⟨r, hr, hmem⟩ := hex
      exact ⟨r, hr, List.elem_eq_true_of_mem hmem⟩

end Payroll
